import Mathlib

/-!
Shallow embedding of the tennis court booking scheduler
(`src/tennis/scheduler.py`, `src/tennis/payments.py`, `src/tennis/responses.py`).

Modelling conventions:
* `dt.date` values are modelled as `Nat` (a day count); only ordering and
  `+ 14` (days) are used by the code.
* `dt.time` values are modelled as `Nat` minutes from midnight; Python
  compares `dt.time` values lexicographically on (hour, minute, ...), which
  matches comparison of minutes.
* `BookingSlot.duration` follows the Python computation
  `(combine(date,end) - combine(date,start)).seconds // 3600`: the
  `timedelta.seconds` field is the nonnegative remainder of the total second
  count modulo 86400, which is `Int.emod` here.
* `distance_from_target_time` returns the distance in hundredths of an hour
  (the Python code returns hours rounded to 2 decimals; the rounding is
  exact in hundredths, and `round` ties never occur because
  `|delta minutes| * 5 / 3` is never a half-integer).
* Python exceptions that a caller catches are modelled with `Option`/`Except`;
  exceptions that escape a booking cycle are the constructors of
  `SchedulerError`, named after the failure taxonomy of the spec (every
  fatal `raise` site of the source is mapped to the taxonomy kind of the
  stage it occurs in).
* Python `sorted` is a stable sort; it is modelled by `List.insertionSort`
  with the reflexive total preorder `key a <= key b` (resp. `key b <= key a`
  for `reverse=True`), which places an element before the elements it is
  inserted among exactly when the keys are equal or smaller, i.e. the unique
  stable ascending (resp. descending) order.
-/

namespace Tennis

/-- Court location (scheduler.py `CourtLocation`). -/
inductive CourtLocation
  | lyle
  | stratford
deriving DecidableEq

/-- Credit card details (payments.py `Card`). -/
structure Card where
  number : Int
  name : String
  cvv : Int
  exp_month : Int
  exp_year : Int
deriving DecidableEq

/-- Payment result (payments.py `PaymentResult`). -/
inductive PaymentResult
  | Ok
  | Declined
deriving DecidableEq

/-- Payment struct (payments.py `Payment`). -/
structure Payment where
  amount : Int
  card : Card
deriving DecidableEq

/-- payments.py `Payment.authorize`: logs and unconditionally returns `Ok`. -/
def Payment.authorize (_p : Payment) : PaymentResult :=
  PaymentResult.Ok

/-- Booking confirmation struct (scheduler.py `BookingConfirmation`). -/
structure BookingConfirmation where
  location : CourtLocation
  court_number : Int
  booking_date : Nat
  booking_time : Nat
  length_in_hours : Nat
deriving DecidableEq

/-- Booking slot struct (scheduler.py `BookingSlot`). Times are minutes from
midnight, the date is a day count, costs are currency amounts. -/
structure BookingSlot where
  location : CourtLocation
  court_number : Int
  date : Nat
  start_time : Nat
  end_time : Nat
  is_open : Bool
  cost : Int
  lighting_cost : Int
deriving DecidableEq

/-- scheduler.py `BookingSlot.duration`: whole hours between start and end
time, computed as `(end - start).seconds // 3600` where `.seconds` is the
second count normalised into `[0, 86400)`. -/
def BookingSlot.duration (s : BookingSlot) : Nat :=
  ((((s.end_time : Int) - (s.start_time : Int)) * 60).emod 86400).toNat / 3600

/-- scheduler.py `BookingSlot.is_double_slot`: duration is at least 2 hours. -/
def BookingSlot.is_double_slot (s : BookingSlot) : Bool :=
  decide (2 ≤ s.duration)

/-- scheduler.py `BookingSlot.is_paid_lighting`: the source returns
`self.lighting_cost == 0` (its own doc string promises "True if lighting
cost is nonzero"). -/
def BookingSlot.is_paid_lighting (s : BookingSlot) : Bool :=
  s.lighting_cost == 0

/-- scheduler.py `BookingSlot.distance_from_target_time`, in hundredths of
an hour: `round(|start - target| in hours, 2)` is exactly
`(|delta minutes| * 10 + 3) / 6` hundredths. -/
def BookingSlot.distance_from_target_time (s : BookingSlot) (target : Nat) : Nat :=
  ((max s.start_time target - min s.start_time target) * 10 + 3) / 6

/-- scheduler.py `BookingSlot.is_available_for_times`: the requested window
lies inside the slot's window. -/
def BookingSlot.is_available_for_times (s : BookingSlot) (st et : Nat) : Bool :=
  decide (s.start_time ≤ st) && decide (et ≤ s.end_time)

/-- Reasons `BookingSlot.request` raises `RuntimeError` in the source. -/
inductive RequestError
  | notAvailable
  | paymentError
deriving DecidableEq

/-- scheduler.py `BookingSlot.request`, instrumented with the number of
payment authorizations performed. Raising is modelled with `Except.error`.
The source checks availability, then authorizes payment when `self.cost`
is truthy (nonzero), then returns the confirmation with
`length_in_hours = min(2, int(self.duration))`. -/
def BookingSlot.requestWithCount (s : BookingSlot) (st et : Nat) (card : Card) :
    Except RequestError BookingConfirmation × Nat :=
  if s.is_available_for_times st et then
    if s.cost ≠ 0 then
      match Payment.authorize { amount := s.cost, card := card } with
      | PaymentResult.Ok =>
          (Except.ok
            { location := s.location
              court_number := s.court_number
              booking_date := s.date
              booking_time := s.start_time
              length_in_hours := min 2 s.duration }, 1)
      | PaymentResult.Declined => (Except.error RequestError.paymentError, 1)
    else
      (Except.ok
        { location := s.location
          court_number := s.court_number
          booking_date := s.date
          booking_time := s.start_time
          length_in_hours := min 2 s.duration }, 0)
  else
    (Except.error RequestError.notAvailable, 0)

/-- scheduler.py `BookingSlot.request` (the result part). -/
def BookingSlot.request (s : BookingSlot) (st et : Nat) (card : Card) :
    Except RequestError BookingConfirmation :=
  (s.requestWithCount st et card).1

/-- Number of payment authorizations one call of `BookingSlot.request`
performs. -/
def BookingSlot.paymentAuths (s : BookingSlot) (st et : Nat) (card : Card) : Nat :=
  (s.requestWithCount st et card).2

/-- Scheduler configuration (scheduler.py `TennisScheduler` dataclass
fields; the card is the one built in `__post_init__` from configuration). -/
structure TennisScheduler where
  booking_date : Nat
  target_start_time : Nat
  target_end_time : Nat
  location : CourtLocation
  include_paid_lighting_slots : Bool
  exclude_one_hour_slots : Bool
  card : Card
deriving DecidableEq

/-- scheduler.py `TennisScheduler.request_booking`: calls `slot.request`
with the target times and card, converting any exception to `None`. -/
def TennisScheduler.request_booking (cfg : TennisScheduler) (s : BookingSlot) :
    Option BookingConfirmation :=
  (s.request cfg.target_start_time cfg.target_end_time cfg.card).toOption

/-- Payment authorizations performed by one `request_booking` call. -/
def TennisScheduler.payment_auths (cfg : TennisScheduler) (s : BookingSlot) : Nat :=
  s.paymentAuths cfg.target_start_time cfg.target_end_time cfg.card

/-- scheduler.py `TennisScheduler._filter_slots`: drop paid-lighting slots
unless `include_paid_lighting_slots`, then drop non-double slots when
`exclude_one_hour_slots`. -/
def TennisScheduler.filter_slots (cfg : TennisScheduler) (slots : List BookingSlot) :
    List BookingSlot :=
  let f1 := if cfg.include_paid_lighting_slots then slots
            else slots.filter (fun s => s.is_paid_lighting)
  if cfg.exclude_one_hour_slots then f1.filter (fun s => s.is_double_slot) else f1

/-- The filtering part of scheduler.py `TennisScheduler._collect_slots`:
keep open slots, then apply `_filter_slots`. -/
def TennisScheduler.filtered_pipeline (cfg : TennisScheduler) (slots : List BookingSlot) :
    List BookingSlot :=
  cfg.filter_slots (slots.filter (fun s => s.is_open))

/-- Comparison used by the second `sorted` call of `_rank_slots`
(`key=duration`, `reverse=True`): descending duration, a total preorder. -/
def durGE (a b : BookingSlot) : Prop :=
  b.duration ≤ a.duration

instance : DecidableRel durGE :=
  fun a b => Nat.decLe b.duration a.duration

instance : IsTotal BookingSlot durGE :=
  ⟨fun a b => Nat.le_total b.duration a.duration⟩

instance : IsTrans BookingSlot durGE :=
  ⟨fun _ _ _ hab hbc => Nat.le_trans hbc hab⟩

/-- Comparison used by the first `sorted` call of `_rank_slots`
(`key=distance_from_target_time(target)`): ascending distance. -/
def distLE (target : Nat) (a b : BookingSlot) : Prop :=
  a.distance_from_target_time target ≤ b.distance_from_target_time target

instance (target : Nat) : DecidableRel (distLE target) :=
  fun a b =>
    Nat.decLe (a.distance_from_target_time target) (b.distance_from_target_time target)

instance (target : Nat) : IsTotal BookingSlot (distLE target) :=
  ⟨fun a b =>
    Nat.le_total (a.distance_from_target_time target) (b.distance_from_target_time target)⟩

instance (target : Nat) : IsTrans BookingSlot (distLE target) :=
  ⟨fun _ _ _ hab hbc => Nat.le_trans hab hbc⟩

/-- scheduler.py `TennisScheduler._rank_slots`: a stable sort by ascending
distance from the target start time, followed by a stable sort by
descending duration. -/
def TennisScheduler.rank_slots (cfg : TennisScheduler) (slots : List BookingSlot) :
    List BookingSlot :=
  List.insertionSort durGE
    (List.insertionSort (distLE cfg.target_start_time) slots)

/-- The `while` loop of scheduler.py `TennisScheduler.book`, instrumented
with the list of candidates attempted, in order. Each iteration calls
`request_booking` on the head; on failure the head is popped and the loop
continues until success or an empty list. -/
def TennisScheduler.bookLoop (cfg : TennisScheduler) :
    List BookingSlot → List BookingSlot × Option BookingConfirmation
  | [] => ([], none)
  | s :: rest =>
    match cfg.request_booking s with
    | some c => ([s], some c)
    | none =>
      let p := cfg.bookLoop rest
      (s :: p.1, p.2)

/-- Failure taxonomy of the spec; each fatal `raise` site of the source is
mapped to the kind of the stage it occurs in (the two raise sites reached
on a non-2xx fetch response both surface as `transportFailure`). -/
inductive SchedulerError
  | invalidRequest
  | transportFailure
  | noSlotsAvailable
  | bookingFailed
deriving DecidableEq

/-- The tail of scheduler.py `TennisScheduler.book` after ranking: run the
attempt loop; a `None` confirmation raises (`bookingFailed`). Also returns
the attempted candidates, in order. -/
def TennisScheduler.book_from_ranked (cfg : TennisScheduler)
    (ranked : List BookingSlot) :
    Except SchedulerError BookingConfirmation × List BookingSlot :=
  let p := cfg.bookLoop ranked
  match p.2 with
  | some c => (Except.ok c, p.1)
  | none => (Except.error SchedulerError.bookingFailed, p.1)

/-- Response status (responses.py `ResponseStatus`). -/
inductive ResponseStatus
  | Ok
  | BadRequest
  | InternalServerError
deriving DecidableEq

/-- responses.py `ResponseStatus.from_status_code`: dispatch on
`status_code // 100`; an unknown class raises `ValueError`, modelled as
`none`. -/
def ResponseStatus.from_status_code (c : Nat) : Option ResponseStatus :=
  match c / 100 with
  | 2 => some ResponseStatus.Ok
  | 4 => some ResponseStatus.BadRequest
  | 5 => some ResponseStatus.InternalServerError
  | _ => none

/-- One session entry of the venue's raw response document
(scheduler.py `_get_slots`). A `none` field stands for a missing or
malformed JSON field, whose access or conversion raises inside the
`try` block. The day date is the `strptime` result (`none` when the date
string does not parse). -/
structure RawSession where
  startTime : Option Int
  endTime : Option Int
  capacity : Option Int
  memberPrice : Option Int
  lightingCost : Option Int
deriving DecidableEq

/-- One day entry of the raw document. -/
structure RawDay where
  date : Option Nat
  sessions : List RawSession
deriving DecidableEq

/-- One court resource of the raw document. -/
structure RawCourt where
  number : Option Int
  days : List RawDay
deriving DecidableEq

/-- The decoded raw document body (its `Resources` list). -/
abbrev RawDoc := List RawCourt

/-- Python `int(x / 60)` for an integer `x`: truncation toward zero. -/
def pyTruncDiv60 (x : Int) : Int :=
  if 0 ≤ x then (x.toNat / 60 : Nat) else -((-x).toNat / 60 : Nat)

/-- Validity of `dt.time(h, 0)` for `h = int(x / 60)`: the constructor
raises unless `0 <= h <= 23`. -/
def hour_ok (x : Int) : Bool :=
  decide (0 ≤ pyTruncDiv60 x ∧ pyTruncDiv60 x ≤ 23)

/-- The body of the `try` block of scheduler.py `_get_slots`, for one
session entry: `none` when any field access, conversion or `dt.time`
construction raises (the entry is then skipped and logged). -/
def parse_session (loc : CourtLocation) (number : Option Int) (dateP : Option Nat)
    (s : RawSession) : Option BookingSlot :=
  match number, dateP, s.startTime, s.endTime, s.capacity, s.memberPrice, s.lightingCost with
  | some n, some d, some st, some en, some cap, some mp, some lc =>
    if hour_ok st && hour_ok en then
      some
        { location := loc
          court_number := n + 1
          date := d
          start_time := (pyTruncDiv60 st).toNat * 60
          end_time := (pyTruncDiv60 en).toNat * 60
          is_open := cap != 0
          cost := mp
          lighting_cost := lc }
    else none
  | _, _, _, _, _, _, _ => none

/-- scheduler.py `TennisScheduler._get_slots` (the catalog builder): walk
`Resources / Days / Sessions`, skipping entries whose parse fails. -/
def get_slots (loc : CourtLocation) (doc : RawDoc) : List BookingSlot :=
  doc.flatMap fun c =>
    c.days.flatMap fun d =>
      d.sessions.filterMap (parse_session loc c.number d.date)

/-- A session entry is well-formed (in the context of its court and day)
when every field the builder reads is present and the start and end hours
are representable by `dt.time`. -/
def session_well_formed (number : Option Int) (dateP : Option Nat)
    (s : RawSession) : Bool :=
  match number, dateP, s.startTime, s.endTime, s.capacity, s.memberPrice, s.lightingCost with
  | some _, some _, some st, some en, some _, some _, some _ => hour_ok st && hour_ok en
  | _, _, _, _, _, _, _ => false

/-- Number of well-formed session entries of a raw document. -/
def count_well_formed (doc : RawDoc) : Nat :=
  (doc.flatMap fun c =>
    c.days.flatMap fun d =>
      d.sessions.filter (session_well_formed c.number d.date)).length

/-- A fetch response: its HTTP status code and (for 2xx responses) its
JSON-decoded body. -/
structure HttpResponse where
  status_code : Nat
  body : RawDoc
deriving DecidableEq

/-- responses.py `ResponseProcessor` + scheduler.py `_get_response_data`:
return the decoded body of an `Ok` response; any other status raises,
fatally for the cycle (`transportFailure`). -/
def get_response_data (resp : HttpResponse) : Except SchedulerError RawDoc :=
  match ResponseStatus.from_status_code resp.status_code with
  | some ResponseStatus.Ok => Except.ok resp.body
  | _ => Except.error SchedulerError.transportFailure

/-- Observable effects of one booking cycle: how many fetches were issued
and which candidates were attempted, in order. -/
structure CycleTrace where
  fetches : Nat
  attempts : List BookingSlot
deriving DecidableEq

/-- One full booking cycle: the `__post_init__` horizon validation (which
precedes any call of `book()`), then fetch, catalog build, filtering,
ranking and the attempt loop, as in scheduler.py `TennisScheduler.book`.
`today` is the current date; `resp` is the venue's response to the single
fetch the cycle issues. The opening-time gate only sleeps and is invisible
to this state-free model. -/
def runScheduler (today : Nat) (cfg : TennisScheduler) (resp : HttpResponse) :
    Except SchedulerError BookingConfirmation × CycleTrace :=
  if today + 14 < cfg.booking_date then
    (Except.error SchedulerError.invalidRequest, { fetches := 0, attempts := [] })
  else
    match get_response_data resp with
    | Except.error e => (Except.error e, { fetches := 1, attempts := [] })
    | Except.ok doc =>
      let filtered := cfg.filtered_pipeline (get_slots cfg.location doc)
      if filtered.isEmpty then
        (Except.error SchedulerError.noSlotsAvailable, { fetches := 1, attempts := [] })
      else
        let out := cfg.book_from_ranked (cfg.rank_slots filtered)
        (out.1, { fetches := 1, attempts := out.2 })

/-- The composite order the code's two-pass ranking actually realises:
strictly longer duration first, and among equal durations ascending
distance from the target start time. -/
def lexKey (target : Nat) (a b : BookingSlot) : Prop :=
  b.duration < a.duration ∨
    (a.duration = b.duration ∧
      a.distance_from_target_time target ≤ b.distance_from_target_time target)

/-- Specification of one run of the booking attempt loop on a ranked list:
the attempted candidates are exactly a prefix `pre ++ [s]` of the ranked
list, every candidate before `s` was rejected, each attempted candidate
performs at most one payment authorization, and either `s` succeeded and
its confirmation (referencing `s`) is returned, or `s` was the last
candidate and the loop ends with no confirmation. -/
def BookLoopSpec (cfg : TennisScheduler) (ranked : List BookingSlot) : Prop :=
  ∃ pre s rest, ranked = pre ++ s :: rest ∧
    (∀ x ∈ pre, cfg.request_booking x = none) ∧
    (cfg.bookLoop ranked).1 = pre ++ [s] ∧
    (∀ x ∈ (cfg.bookLoop ranked).1, cfg.payment_auths x ≤ 1) ∧
    ((∃ c, cfg.request_booking s = some c ∧ (cfg.bookLoop ranked).2 = some c ∧
        c.location = s.location ∧ c.court_number = s.court_number ∧
        c.booking_date = s.date ∧ c.booking_time = s.start_time) ∨
      (cfg.request_booking s = none ∧ rest = [] ∧ (cfg.bookLoop ranked).2 = none))

/-- Concrete card used by the concrete examples below. -/
def cardW : Card :=
  { number := 4111111111111111, name := "J. Tobin", cvv := 123, exp_month := 1, exp_year := 2030 }

/-- Concrete scheduler configuration: booking date 10, target window
10:00 - 12:00 (600 - 720 minutes), default filters. -/
def cfgC1 : TennisScheduler :=
  { booking_date := 10, target_start_time := 600, target_end_time := 720
    location := CourtLocation.lyle, include_paid_lighting_slots := false
    exclude_one_hour_slots := true, card := cardW }

/-- Slot starting 10:30, two hours long: distance 0.50 h from a 10:00
target, duration 2. -/
def slotA : BookingSlot :=
  { location := CourtLocation.lyle, court_number := 1, date := 10
    start_time := 630, end_time := 750, is_open := true, cost := 0, lighting_cost := 0 }

/-- Slot starting 12:00, three hours long: distance 2.00 h from a 10:00
target, duration 3. -/
def slotB : BookingSlot :=
  { location := CourtLocation.lyle, court_number := 2, date := 10
    start_time := 720, end_time := 900, is_open := true, cost := 0, lighting_cost := 0 }

/-- Open free slot exactly covering the 10:00 - 12:00 target window. -/
def slotGood : BookingSlot :=
  { location := CourtLocation.lyle, court_number := 1, date := 10
    start_time := 600, end_time := 720, is_open := true, cost := 0, lighting_cost := 0 }

/-- Slot whose window (11:00 - 12:00) does not contain the target window,
so the booking attempt is rejected locally. -/
def slotBad : BookingSlot :=
  { location := CourtLocation.lyle, court_number := 3, date := 10
    start_time := 660, end_time := 720, is_open := true, cost := 0, lighting_cost := 0 }

/-- A closed slot. -/
def slotClosed : BookingSlot :=
  { location := CourtLocation.lyle, court_number := 4, date := 10
    start_time := 600, end_time := 720, is_open := false, cost := 0, lighting_cost := 0 }

/-- A slot with nonzero lighting cost. -/
def slotLit : BookingSlot :=
  { location := CourtLocation.lyle, court_number := 5, date := 10
    start_time := 600, end_time := 720, is_open := true, cost := 0, lighting_cost := 5 }

/-- Configuration whose booking date (15) exceeds day 0 plus the 14-day
horizon. -/
def cfgLate : TennisScheduler :=
  { booking_date := 15, target_start_time := 600, target_end_time := 720
    location := CourtLocation.lyle, include_paid_lighting_slots := false
    exclude_one_hour_slots := true, card := cardW }

/-- A successful (2xx) fetch response with an empty body. -/
def respOk : HttpResponse :=
  { status_code := 200, body := [] }

/-- A server-error (5xx) fetch response. -/
def resp500 : HttpResponse :=
  { status_code := 500, body := [] }

/-- The confirmation `slotGood.request 600 720 cardW` commits. -/
def confGood : BookingConfirmation :=
  { location := CourtLocation.lyle, court_number := 1, booking_date := 10
    booking_time := 600, length_in_hours := 2 }

/-! ### Helper lemmas about stable sorting -/

theorem filter_orderedInsert_neg {α : Type} (r : α → α → Prop) [DecidableRel r]
    (p : α → Bool) (a : α) (ha : p a = false) (l : List α) :
    (List.orderedInsert r a l).filter p = l.filter p := by
  induction l with
  | nil => simp [List.orderedInsert, ha]
  | cons b t ih =>
    by_cases hr : r a b
    · simp [List.orderedInsert, hr, List.filter_cons, ha]
    · simp only [List.orderedInsert, if_neg hr, List.filter_cons]
      rw [ih]

theorem filter_orderedInsert_pos {α : Type} (r : α → α → Prop) [DecidableRel r]
    (p : α → Bool) (a : α) (ha : p a = true) (h : ∀ b, p b = true → r a b) (l : List α) :
    (List.orderedInsert r a l).filter p = a :: l.filter p := by
  induction l with
  | nil => simp [List.orderedInsert, ha]
  | cons b t ih =>
    by_cases hr : r a b
    · simp [List.orderedInsert, hr, List.filter_cons, ha]
    · have hb : p b = false := by
        cases hpb : p b
        · rfl
        · exact absurd (h b hpb) hr
      simp only [List.orderedInsert, if_neg hr, List.filter_cons, hb, if_neg]
      rw [ih]
      simp

theorem filter_insertionSort {α : Type} (r : α → α → Prop) [DecidableRel r]
    (p : α → Bool) (hp : ∀ a b, p a = true → p b = true → r a b) (l : List α) :
    (List.insertionSort r l).filter p = l.filter p := by
  induction l with
  | nil => rfl
  | cons a t ih =>
    cases hpa : p a
    · rw [List.insertionSort, filter_orderedInsert_neg r p a hpa, ih]
      simp [List.filter_cons, hpa]
    · rw [List.insertionSort,
        filter_orderedInsert_pos r p a hpa (fun b hb => hp a b hpa hb), ih]
      simp [List.filter_cons, hpa]

theorem pairwise_lex_of {α : Type} (k1 k2 : α → Nat) (L : List α)
    (h1 : L.Pairwise (fun a b => k1 b ≤ k1 a))
    (h2 : ∀ d, (L.filter (fun s => k1 s == d)).Pairwise (fun a b => k2 a ≤ k2 b)) :
    L.Pairwise (fun a b => k1 b < k1 a ∨ (k1 a = k1 b ∧ k2 a ≤ k2 b)) := by
  induction L with
  | nil => exact List.Pairwise.nil
  | cons x t ih =>
    obtain ⟨hx, ht⟩ := List.pairwise_cons.mp h1
    refine List.pairwise_cons.mpr ⟨?_, ?_⟩
    · intro b hb
      rcases Nat.eq_or_lt_of_le (hx b hb) with heq | hlt
      · refine Or.inr ⟨heq.symm, ?_⟩
        have hfx := h2 (k1 x)
        rw [show (x :: t).filter (fun s => k1 s == k1 x)
              = x :: t.filter (fun s => k1 s == k1 x) by simp [List.filter_cons]] at hfx
        exact (List.pairwise_cons.mp hfx).1 b
          (List.mem_filter.mpr ⟨hb, by simp [heq]⟩)
      · exact Or.inl hlt
    · refine ih ht ?_
      intro d
      have hfd := h2 d
      by_cases hxd : k1 x = d
      · rw [show (x :: t).filter (fun s => k1 s == d)
              = x :: t.filter (fun s => k1 s == d) by simp [List.filter_cons, hxd]] at hfd
        exact (List.pairwise_cons.mp hfd).2
      · rwa [show (x :: t).filter (fun s => k1 s == d)
              = t.filter (fun s => k1 s == d) by simp [List.filter_cons, hxd]] at hfd

/-! ### Claim C1: ranking order -/

/-- C1 (counterexample): the claim says ascending distance from the target
start time is the primary sort key, but on two slots at distances 0.50 h
and 2.00 h the code puts the farther slot first because its duration is
larger: the second `sorted` pass (by descending duration) dominates. -/
theorem rank_slots_counterexample :
    cfgC1.rank_slots [slotA, slotB] = [slotB, slotA] ∧
    slotA.distance_from_target_time cfgC1.target_start_time <
      slotB.distance_from_target_time cfgC1.target_start_time := by
  constructor
  · rfl
  · decide

/-- C1 (amended): `_rank_slots` orders slots with descending `duration` as
the primary key and ascending `distance_from_target_time(target)` as the
tie-break among equal durations; the result is a permutation of the input,
and the order is stable (slots with equal duration and distance keep their
relative input order) and deterministic (the ranking is a pure function of
its input). -/
theorem rank_slots_amended (cfg : TennisScheduler) (slots : List BookingSlot) :
    List.Perm (cfg.rank_slots slots) slots ∧
    List.Pairwise (lexKey cfg.target_start_time) (cfg.rank_slots slots) ∧
    (∀ d t, (cfg.rank_slots slots).filter
        (fun s => s.duration == d &&
          s.distance_from_target_time cfg.target_start_time == t) =
      slots.filter
        (fun s => s.duration == d &&
          s.distance_from_target_time cfg.target_start_time == t)) := by
  refine ⟨?_, ?_, ?_⟩
  · exact (List.perm_insertionSort durGE _).trans
      (List.perm_insertionSort (distLE cfg.target_start_time) slots)
  · have hsorted : List.Pairwise durGE (cfg.rank_slots slots) :=
      List.sorted_insertionSort durGE _
    have hcls : ∀ d, ((cfg.rank_slots slots).filter
        (fun s => s.duration == d)).Pairwise
          (fun a b => a.distance_from_target_time cfg.target_start_time ≤
            b.distance_from_target_time cfg.target_start_time) := by
      intro d
      have hstable : (cfg.rank_slots slots).filter (fun s => s.duration == d)
          = (List.insertionSort (distLE cfg.target_start_time) slots).filter
              (fun s => s.duration == d) := by
        refine filter_insertionSort durGE _ ?_ _
        intro a b ha hb
        have ha' : a.duration = d := by simpa using ha
        have hb' : b.duration = d := by simpa using hb
        show b.duration ≤ a.duration
        rw [ha', hb']
      rw [hstable]
      have hm : List.Pairwise (distLE cfg.target_start_time)
          (List.insertionSort (distLE cfg.target_start_time) slots) :=
        List.sorted_insertionSort (distLE cfg.target_start_time) slots
      exact hm.filter _
    have hsorted' : List.Pairwise
        (fun a b : BookingSlot => b.duration ≤ a.duration) (cfg.rank_slots slots) :=
      hsorted
    exact pairwise_lex_of (fun s => s.duration)
      (fun s => s.distance_from_target_time cfg.target_start_time)
      (cfg.rank_slots slots) hsorted' hcls
  · intro d t
    have h1 : (cfg.rank_slots slots).filter
        (fun s => s.duration == d &&
          s.distance_from_target_time cfg.target_start_time == t)
        = (List.insertionSort (distLE cfg.target_start_time) slots).filter
            (fun s => s.duration == d &&
              s.distance_from_target_time cfg.target_start_time == t) := by
      refine filter_insertionSort durGE _ ?_ _
      intro a b ha hb
      have ha' : a.duration = d := by
        have := (Bool.and_eq_true _ _).mp ha
        simpa using this.1
      have hb' : b.duration = d := by
        have := (Bool.and_eq_true _ _).mp hb
        simpa using this.1
      show b.duration ≤ a.duration
      rw [ha', hb']
    have h2 : (List.insertionSort (distLE cfg.target_start_time) slots).filter
        (fun s => s.duration == d &&
          s.distance_from_target_time cfg.target_start_time == t)
        = slots.filter
            (fun s => s.duration == d &&
              s.distance_from_target_time cfg.target_start_time == t) := by
      refine filter_insertionSort (distLE cfg.target_start_time) _ ?_ _
      intro a b ha hb
      have ha' : a.distance_from_target_time cfg.target_start_time = t := by
        have := (Bool.and_eq_true _ _).mp ha
        simpa using this.2
      have hb' : b.distance_from_target_time cfg.target_start_time = t := by
        have := (Bool.and_eq_true _ _).mp hb
        simpa using this.2
      show a.distance_from_target_time cfg.target_start_time ≤
        b.distance_from_target_time cfg.target_start_time
      rw [ha', hb']
    rw [h1, h2]

/-! ### Helper lemmas about booking attempts -/

theorem requestWithCount_snd_le_one (s : BookingSlot) (st et : Nat) (card : Card) :
    s.paymentAuths st et card ≤ 1 := by
  unfold BookingSlot.paymentAuths BookingSlot.requestWithCount
  split_ifs <;> simp [Payment.authorize]

theorem payment_auths_le_one (cfg : TennisScheduler) (s : BookingSlot) :
    cfg.payment_auths s ≤ 1 :=
  requestWithCount_snd_le_one s cfg.target_start_time cfg.target_end_time cfg.card

theorem request_ok_eq (s : BookingSlot) (st et : Nat) (card : Card)
    (c : BookingConfirmation) (h : s.request st et card = Except.ok c) :
    c = { location := s.location, court_number := s.court_number,
          booking_date := s.date, booking_time := s.start_time,
          length_in_hours := min 2 s.duration } := by
  unfold BookingSlot.request BookingSlot.requestWithCount at h
  split_ifs at h <;> simp_all [Payment.authorize]

theorem toOption_eq_some {ε α : Type} (e : Except ε α) (a : α)
    (h : e.toOption = some a) : e = Except.ok a := by
  cases e <;> simp_all [Except.toOption]

theorem request_booking_some (cfg : TennisScheduler) (s : BookingSlot)
    (c : BookingConfirmation) (h : cfg.request_booking s = some c) :
    c.location = s.location ∧ c.court_number = s.court_number ∧
    c.booking_date = s.date ∧ c.booking_time = s.start_time := by
  have h' := toOption_eq_some _ _ h
  have := request_ok_eq s cfg.target_start_time cfg.target_end_time cfg.card c h'
  subst this
  exact ⟨rfl, rfl, rfl, rfl⟩

theorem bookLoop_cons_some (cfg : TennisScheduler) (s : BookingSlot)
    (rest : List BookingSlot) (c : BookingConfirmation)
    (h : cfg.request_booking s = some c) :
    cfg.bookLoop (s :: rest) = ([s], some c) := by
  unfold TennisScheduler.bookLoop
  rw [h]

theorem bookLoop_cons_none (cfg : TennisScheduler) (s : BookingSlot)
    (rest : List BookingSlot) (h : cfg.request_booking s = none) :
    cfg.bookLoop (s :: rest) = (s :: (cfg.bookLoop rest).1, (cfg.bookLoop rest).2) := by
  conv_lhs => unfold TennisScheduler.bookLoop
  rw [h]

/-! ### Claim C2: the booking attempt loop -/

/-- C2: on every non-empty ranked candidate list, the attempt loop of
`book()` tries candidates strictly in ranked order, never revisits a
dropped candidate, performs at most one payment authorization per
attempted candidate, and stops at the first successful attempt, returning
the confirmation referencing that candidate with no further candidates
tried (`BookLoopSpec` spells this out). -/
theorem book_loop_spec (cfg : TennisScheduler) (ranked : List BookingSlot)
    (h : ranked ≠ []) : BookLoopSpec cfg ranked := by
  revert h
  induction ranked with
  | nil => intro h; exact absurd rfl h
  | cons s rest ih =>
    intro _h
    cases hrb : cfg.request_booking s with
    | some c =>
      refine ⟨[], s, rest, rfl, by simp, ?_, ?_, ?_⟩
      · rw [bookLoop_cons_some cfg s rest c hrb]
        rfl
      · intro x _
        exact payment_auths_le_one cfg x
      · obtain ⟨hl, hn, hd, ht⟩ := request_booking_some cfg s c hrb
        exact Or.inl ⟨c, hrb, by rw [bookLoop_cons_some cfg s rest c hrb], hl, hn, hd, ht⟩
    | none =>
      cases rest with
      | nil =>
        refine ⟨[], s, [], rfl, by simp, ?_, ?_, Or.inr ⟨hrb, rfl, ?_⟩⟩
        · rw [bookLoop_cons_none cfg s [] hrb]
          rfl
        · intro x _
          exact payment_auths_le_one cfg x
        · rw [bookLoop_cons_none cfg s [] hrb]
          rfl
      | cons b t =>
        obtain ⟨pre, s', rest', heq, hpre, htr, _hauth, hres⟩ := ih (by simp)
        refine ⟨s :: pre, s', rest', by rw [heq]; rfl, ?_, ?_, ?_, ?_⟩
        · intro x hx
          rcases List.mem_cons.mp hx with hxe | hxm
          · rw [hxe]; exact hrb
          · exact hpre x hxm
        · rw [bookLoop_cons_none cfg s (b :: t) hrb]
          show s :: (cfg.bookLoop (b :: t)).1 = (s :: pre) ++ [s']
          rw [htr]
          rfl
        · intro x _
          exact payment_auths_le_one cfg x
        · have hsnd : (cfg.bookLoop (s :: b :: t)).2 = (cfg.bookLoop (b :: t)).2 := by
            rw [bookLoop_cons_none cfg s (b :: t) hrb]
          rcases hres with ⟨c, hc1, hc2, hcf⟩ | ⟨hn1, hn2, hn3⟩
          · exact Or.inl ⟨c, hc1, by rw [hsnd]; exact hc2, hcf⟩
          · exact Or.inr ⟨hn1, hn2, by rw [hsnd]; exact hn3⟩

/-- C2 (witness): a two-candidate ranked list whose first candidate is
rejected by window validation and whose second succeeds. -/
theorem book_loop_spec_witness :
    ([slotBad, slotGood] ≠ ([] : List BookingSlot)) ∧
    BookLoopSpec cfgC1 [slotBad, slotGood] :=
  ⟨by decide, book_loop_spec cfgC1 [slotBad, slotGood] (by decide)⟩

/-! ### Claim C3: the paid-lighting predicate -/

/-- C3: the claim (and the source's own doc string) says `is_paid_lighting`
is true exactly when the lighting cost is nonzero, but the source returns
`lighting_cost == 0`: on a slot with lighting cost 5 it returns `false`. -/
theorem is_paid_lighting_inverted :
    slotLit.lighting_cost ≠ 0 ∧ slotLit.is_paid_lighting = false := by
  constructor
  · decide
  · rfl

/-! ### Claim C4: exhaustion -/

/-- C4: on a non-empty ranked candidate list in which every attempt is
rejected, `book()` fails with `bookingFailed` after attempting every
candidate exactly once (the attempt trace is exactly the ranked list). -/
theorem book_exhaustion (cfg : TennisScheduler) (ranked : List BookingSlot)
    (_h : ranked ≠ []) (hall : ∀ s ∈ ranked, cfg.request_booking s = none) :
    cfg.book_from_ranked ranked =
      (Except.error SchedulerError.bookingFailed, ranked) := by
  have hloop : ∀ l : List BookingSlot,
      (∀ s ∈ l, cfg.request_booking s = none) → cfg.bookLoop l = (l, none) := by
    intro l
    induction l with
    | nil => intro _; rfl
    | cons s t ih =>
      intro hall'
      have hs : cfg.request_booking s = none := hall' s (List.mem_cons_self s t)
      have ht := ih (fun x hx => hall' x (List.mem_cons_of_mem s hx))
      simp [TennisScheduler.bookLoop, hs, ht]
  unfold TennisScheduler.book_from_ranked
  rw [hloop ranked hall]

/-- C4 (witness): a single always-rejected candidate. -/
theorem book_exhaustion_witness :
    (([slotBad] : List BookingSlot) ≠ []) ∧
    (∀ s ∈ ([slotBad] : List BookingSlot), cfgC1.request_booking s = none) ∧
    cfgC1.book_from_ranked [slotBad] =
      (Except.error SchedulerError.bookingFailed, [slotBad]) :=
  ⟨by decide, by decide,
    book_exhaustion cfgC1 [slotBad] (by decide) (by decide)⟩

/-! ### Claim C5: the filter pipeline -/

/-- C5: the filter pipeline never outputs a closed slot; with
`include_paid_lighting_slots = false` it outputs no slot with nonzero
lighting cost; with `exclude_one_hour_slots = true` it outputs no slot of
duration below 2 hours. -/
theorem filter_pipeline_correct (cfg : TennisScheduler) (slots : List BookingSlot) :
    (∀ s ∈ cfg.filtered_pipeline slots, s.is_open = true) ∧
    (cfg.include_paid_lighting_slots = false →
      ∀ s ∈ cfg.filtered_pipeline slots, s.lighting_cost = 0) ∧
    (cfg.exclude_one_hour_slots = true →
      ∀ s ∈ cfg.filtered_pipeline slots, 2 ≤ s.duration) := by
  refine ⟨?_, ?_, ?_⟩
  · intro s hs
    simp only [TennisScheduler.filtered_pipeline, TennisScheduler.filter_slots] at hs
    split_ifs at hs <;>
      simp_all [List.mem_filter]
  · intro hinc s hs
    simp only [TennisScheduler.filtered_pipeline, TennisScheduler.filter_slots, hinc,
      if_false] at hs
    split_ifs at hs <;>
      simp_all [List.mem_filter, BookingSlot.is_paid_lighting]
  · intro hexc s hs
    simp only [TennisScheduler.filtered_pipeline, TennisScheduler.filter_slots, hexc,
      if_true] at hs
    split_ifs at hs <;>
      simp_all [List.mem_filter, BookingSlot.is_double_slot]

/-- C5 (witness): with the default configuration, the open free double
slot survives the pipeline and satisfies all three guarantees. -/
theorem filter_pipeline_correct_witness :
    slotGood ∈ cfgC1.filtered_pipeline [slotGood, slotClosed, slotLit] ∧
    slotGood.is_open = true ∧ slotGood.lighting_cost = 0 ∧ 2 ≤ slotGood.duration :=
  ⟨by decide,
    (filter_pipeline_correct cfgC1 [slotGood, slotClosed, slotLit]).1 slotGood (by decide),
    (filter_pipeline_correct cfgC1 [slotGood, slotClosed, slotLit]).2.1 rfl slotGood
      (by decide),
    (filter_pipeline_correct cfgC1 [slotGood, slotClosed, slotLit]).2.2 rfl slotGood
      (by decide)⟩

/-! ### Claim C6: the 14-day horizon -/

/-- C6: for every booking date strictly later than today plus 14 days, the
scheduler fails with `invalidRequest` and the fetch collaborator is never
consulted (zero fetches, and the result does not depend on the response at
all). -/
theorem horizon_invariant (today : Nat) (cfg : TennisScheduler) (resp : HttpResponse)
    (h : today + 14 < cfg.booking_date) :
    runScheduler today cfg resp =
      (Except.error SchedulerError.invalidRequest, { fetches := 0, attempts := [] }) := by
  simp [runScheduler, h]

/-- C6 (witness): booking date 15 with today = 0. -/
theorem horizon_invariant_witness :
    (0 : Nat) + 14 < cfgLate.booking_date ∧
    runScheduler 0 cfgLate respOk =
      (Except.error SchedulerError.invalidRequest, { fetches := 0, attempts := [] }) :=
  ⟨by decide, horizon_invariant 0 cfgLate respOk (by decide)⟩

/-! ### Claim C7: catalog builder resilience -/

theorem parse_session_isSome (loc : CourtLocation) (n : Option Int) (dp : Option Nat)
    (s : RawSession) :
    (parse_session loc n dp s).isSome = session_well_formed n dp s := by
  unfold parse_session session_well_formed
  cases n <;> cases dp <;> cases s.startTime <;> cases s.endTime <;>
    cases s.capacity <;> cases s.memberPrice <;> cases s.lightingCost <;> simp
  split <;> simp_all

theorem filterMap_parse_length (loc : CourtLocation) (n : Option Int) (dp : Option Nat)
    (ss : List RawSession) :
    (ss.filterMap (parse_session loc n dp)).length
      = (ss.filter (session_well_formed n dp)).length := by
  induction ss with
  | nil => rfl
  | cons s t ih =>
    rw [List.filterMap_cons, List.filter_cons]
    cases hws : session_well_formed n dp s
    · have hp : parse_session loc n dp s = none := by
        have := parse_session_isSome loc n dp s
        rw [hws] at this
        exact Option.not_isSome_iff_eq_none.mp (by simp [this])
      rw [hp]
      simp [ih]
    · have hp : (parse_session loc n dp s).isSome = true := by
        rw [parse_session_isSome loc n dp s, hws]
      obtain ⟨b, hb⟩ := Option.isSome_iff_exists.mp hp
      rw [hb]
      simp [ih]

theorem flatMap_days_length (loc : CourtLocation) (n : Option Int) (ds : List RawDay) :
    (ds.flatMap fun d => d.sessions.filterMap (parse_session loc n d.date)).length
      = (ds.flatMap fun d => d.sessions.filter (session_well_formed n d.date)).length := by
  induction ds with
  | nil => rfl
  | cons d t ih =>
    simp only [List.flatMap_cons, List.length_append]
    rw [filterMap_parse_length, ih]

/-- C7: the catalog builder is a total function of the raw document (a
malformed session entry can never raise past it or abort the build), and
on a document whose session entries are N well-formed and M malformed it
yields exactly N `BookingSlot` records. -/
theorem catalog_builder_count (loc : CourtLocation) (doc : RawDoc) :
    (get_slots loc doc).length = count_well_formed doc := by
  unfold get_slots count_well_formed
  induction doc with
  | nil => rfl
  | cons c cs ih =>
    simp only [List.flatMap_cons, List.length_append]
    rw [flatMap_days_length, ih]

/-! ### Claim C8: transport failures are fatal -/

theorem from_status_code_ok (c : Nat)
    (h : ResponseStatus.from_status_code c = some ResponseStatus.Ok) : c / 100 = 2 := by
  unfold ResponseStatus.from_status_code at h
  split at h <;> simp_all

/-- C8: on every fetch response with a non-2xx status code (and a booking
date inside the horizon, so that the fetch stage is reached), the cycle
fails with `transportFailure`, no candidate is attempted, and exactly one
fetch is issued (the fetch is not retried within the invocation). -/
theorem transport_failure_fatal (today : Nat) (cfg : TennisScheduler)
    (resp : HttpResponse) (hc : resp.status_code / 100 ≠ 2)
    (hd : cfg.booking_date ≤ today + 14) :
    runScheduler today cfg resp =
      (Except.error SchedulerError.transportFailure, { fetches := 1, attempts := [] }) := by
  have hresp : get_response_data resp = Except.error SchedulerError.transportFailure := by
    unfold get_response_data
    cases hst : ResponseStatus.from_status_code resp.status_code with
    | none => rfl
    | some st =>
      cases st with
      | Ok => exact absurd (from_status_code_ok _ hst) hc
      | BadRequest => rfl
      | InternalServerError => rfl
  have hnot : ¬ (today + 14 < cfg.booking_date) := Nat.not_lt.mpr hd
  simp [runScheduler, hnot, hresp]

/-- C8 (witness): a 500 response with a booking date inside the horizon. -/
theorem transport_failure_fatal_witness :
    resp500.status_code / 100 ≠ 2 ∧ cfgC1.booking_date ≤ (0 : Nat) + 14 ∧
    runScheduler 0 cfgC1 resp500 =
      (Except.error SchedulerError.transportFailure, { fetches := 1, attempts := [] }) :=
  ⟨by decide, by decide, transport_failure_fatal 0 cfgC1 resp500 (by decide) (by decide)⟩

/-! ### Claim C9: confirmed length is capped at 2 hours -/

/-- C9: every confirmation a successful `BookingSlot.request` returns has
`length_in_hours = min 2 duration`, hence never above 2. -/
theorem request_caps_length (s : BookingSlot) (st et : Nat) (card : Card)
    (c : BookingConfirmation) (h : s.request st et card = Except.ok c) :
    c.length_in_hours = min 2 s.duration ∧ c.length_in_hours ≤ 2 := by
  have hc := request_ok_eq s st et card c h
  subst hc
  exact ⟨rfl, Nat.min_le_left _ _⟩

/-- C9 (witness): the two-hour slot commits with length 2. -/
theorem request_caps_length_witness :
    slotGood.request 600 720 cardW = Except.ok confGood ∧
    (confGood.length_in_hours = min 2 slotGood.duration ∧ confGood.length_in_hours ≤ 2) :=
  ⟨rfl, request_caps_length slotGood 600 720 cardW confGood rfl⟩

/-! ### Claim C10: payment never declines -/

/-- C10: `Payment.authorize` returns `Ok` for every payment, the
payment-declined branch of `BookingSlot.request` is unreachable, and every
attempt on a slot whose window contains the requested interval succeeds. -/
theorem authorize_always_ok :
    (∀ p : Payment, p.authorize = PaymentResult.Ok) ∧
    (∀ (s : BookingSlot) (st et : Nat) (card : Card),
      s.request st et card ≠ Except.error RequestError.paymentError) ∧
    (∀ (s : BookingSlot) (st et : Nat) (card : Card),
      s.is_available_for_times st et = true →
        ∃ c, s.request st et card = Except.ok c) := by
  refine ⟨fun _p => rfl, ?_, ?_⟩
  · intro s st et card
    unfold BookingSlot.request BookingSlot.requestWithCount
    split_ifs <;> simp [Payment.authorize]
  · intro s st et card h
    unfold BookingSlot.request BookingSlot.requestWithCount
    rw [if_pos h]
    split_ifs <;> exact ⟨_, rfl⟩

/-- C10 (witness): the attempt on the slot covering the requested window
succeeds. -/
theorem authorize_always_ok_witness :
    slotGood.is_available_for_times 600 720 = true ∧
    ∃ c, slotGood.request 600 720 cardW = Except.ok c :=
  ⟨by decide, authorize_always_ok.2.2 slotGood 600 720 cardW (by decide)⟩

end Tennis
